import Mathlib

/-!
Shallow embedding of the rgb-splitting lambda (src/rgb_splitting_lambda.py).

The module splits an RGB image into three single-channel images and uploads
them to a destination bucket.  Pure image manipulation is modelled over
nested lists of natural numbers; the S3 client, the PIL codec and the
environment are modelled as an oracle structure; the module-level mutable
state (the object_keys list and the durable object store) is threaded
explicitly.
-/

namespace RGBSplit

/-! ## Rasters (numpy H x W x 3 arrays of uint8 samples) -/

/-- Byte strings (object bodies, encoded images). -/
abbrev Bytes := List Nat

/-- A decoded image as a 3-d array: rows of pixels, each pixel a list of
channel samples, indexed [row][column][channel]. -/
abbrev Raster := List (List (List Nat))

/-- Embedding of the numpy statement arr[:, :, c] = 0: every pixel has its
c-th channel overwritten with 0. -/
def zeroChannel (c : Nat) (a : Raster) : Raster :=
  a.map (fun row => row.map (fun px => px.set c 0))

/-- Embedding of create_channel_images (rgb_splitting_lambda.py lines 17-73):
each output starts from a fresh copy of the input array and has two channels
zeroed; red keeps channel 0, green channel 1, blue channel 2. -/
def create_channel_images (a : Raster) : Raster × Raster × Raster :=
  (zeroChannel 2 (zeroChannel 1 a),
   zeroChannel 2 (zeroChannel 0 a),
   zeroChannel 1 (zeroChannel 0 a))

/-- The shape of a raster: for every row, the list of its pixel widths
(channel counts).  Two rasters have the same H x W x C structure iff their
shapes coincide. -/
def shape (a : Raster) : List (List Nat) :=
  a.map (fun row => row.map (fun px => px.length))

/-- Sample accessor: channel c of pixel (i, j), when present. -/
def sample (a : Raster) (i j c : Nat) : Option Nat :=
  ((a[i]?.bind fun row => row[j]?).bind fun px => px[c]?)

/-- A concrete 1 x 2 RGB raster used as evaluation input. -/
def img1 : Raster := [[[10, 20, 30], [40, 50, 60]]]

/-! ## Buffer-level view of the splitter

To settle aliasing and mutation questions the splitter is also embedded
over an explicit heap of array buffers: np.array(original_image) allocates
a fresh buffer holding a copy of the source samples, and the numpy slice
assignments are in-place writes to that buffer. -/

/-- A heap of array buffers: size is the number of allocated buffers,
val the contents of each buffer id. -/
structure Heap where
  size : Nat
  val : Nat → Raster

/-- Read the contents of buffer i. -/
def Heap.read (h : Heap) (i : Nat) : Raster := h.val i

/-- Allocate a fresh buffer initialised with r; returns the new heap and
the fresh buffer id. -/
def Heap.alloc (h : Heap) (r : Raster) : Heap × Nat :=
  (⟨h.size + 1, fun j => if j = h.size then r else h.val j⟩, h.size)

/-- Overwrite buffer i in place. -/
def Heap.write (h : Heap) (i : Nat) (r : Raster) : Heap :=
  ⟨h.size, fun j => if j = i then r else h.val j⟩

/-- Buffer-level embedding of create_channel_images: for each of the three
outputs, np.array copies the input image into a fresh buffer, and the two
slice assignments mutate that buffer in place (lines 58-71). -/
def create_channel_images_heap (h : Heap) (inp : Nat) : Heap × Nat × Nat × Nat :=
  let a1 := h.alloc (h.read inp)
  let h1 := a1.1.write a1.2 (zeroChannel 1 (a1.1.read a1.2))
  let h2 := h1.write a1.2 (zeroChannel 2 (h1.read a1.2))
  let a2 := h2.alloc (h2.read inp)
  let h3 := a2.1.write a2.2 (zeroChannel 0 (a2.1.read a2.2))
  let h4 := h3.write a2.2 (zeroChannel 2 (h3.read a2.2))
  let a3 := h4.alloc (h4.read inp)
  let h5 := a3.1.write a3.2 (zeroChannel 0 (a3.1.read a3.2))
  let h6 := h5.write a3.2 (zeroChannel 1 (h5.read a3.2))
  (h6, a1.2, a2.2, a3.2)

/-- A concrete heap with a single buffer holding img1. -/
def heap1 : Heap := ⟨1, fun _ => img1⟩

/-! ## Exceptions, event payloads, external services and module state -/

/-- Python exceptions that can flow through the module.  keyError and
typeError arise from field access on the event payload; clientError from
boto3 calls; decodeError and encodeError from PIL.  processingError is the
wrapper exception the specification postulates; the source defines no such
class, the constructor exists only so that statements about it can be
expressed. -/
inductive PyErr where
  | keyError (k : String)
  | typeError (msg : String)
  | clientError (msg : String)
  | decodeError (msg : String)
  | encodeError (msg : String)
  | processingError (objectKey : String) (cause : PyErr)
  deriving DecidableEq

/-- Embedding of str(e) for the exceptions above, as used in the f-string
building the 500 body. -/
def strOfErr : PyErr → String
  | .keyError k => "'" ++ k ++ "'"
  | .typeError m => m
  | .clientError m => m
  | .decodeError m => m
  | .encodeError m => m
  | .processingError k c => "(" ++ k ++ ", " ++ strOfErr c ++ ")"

/-- JSON-like values: the shape of a Lambda event payload after json
deserialisation. -/
inductive JVal where
  | null
  | bool (b : Bool)
  | num (n : Int)
  | str (s : String)
  | arr (xs : List JVal)
  | obj (fields : List (String × JVal))

/-- Embedding of Python subscripting v[k] with a string key: dict lookup
raising KeyError on a missing key, TypeError on non-dict values. -/
def JVal.subscript (v : JVal) (k : String) : Except PyErr JVal :=
  match v with
  | .obj fields =>
    match fields.lookup k with
    | some x => .ok x
    | none => .error (.keyError k)
  | .str _ => .error (.typeError "string indices must be integers")
  | _ => .error (.typeError "object is not subscriptable")

/-- Embedding of Python iteration (for x in v): lists yield their elements,
dicts their keys, strings their characters; other values raise TypeError. -/
def pyIter : JVal → Except PyErr (List JVal)
  | .arr xs => .ok xs
  | .obj fields => .ok (fields.map (fun f => .str f.1))
  | .str s => .ok (s.data.map (fun c => .str (String.mk [c])))
  | _ => .error (.typeError "object is not iterable")

/-- Value of one hex digit, when the character is one. -/
def hexVal (c : Char) : Option Nat :=
  if '0' ≤ c ∧ c ≤ '9' then some (c.toNat - '0'.toNat)
  else if 'a' ≤ c ∧ c ≤ 'f' then some (c.toNat - 'a'.toNat + 10)
  else if 'A' ≤ c ∧ c ≤ 'F' then some (c.toNat - 'A'.toNat + 10)
  else none

/-- Character-level core of urllib.parse.unquote_plus: plus signs become
spaces and valid percent escapes are decoded; malformed escapes are kept
verbatim. -/
def unquoteChars : List Char → List Char
  | [] => []
  | '+' :: rest => ' ' :: unquoteChars rest
  | '%' :: h1 :: h2 :: rest =>
    match hexVal h1, hexVal h2 with
    | some a, some b => Char.ofNat (16 * a + b) :: unquoteChars rest
    | _, _ => '%' :: unquoteChars (h1 :: h2 :: rest)
  | c :: rest => c :: unquoteChars rest

/-- Embedding of urllib.parse.unquote_plus on the object key. -/
def unquote_plus (s : String) : String := String.mk (unquoteChars s.data)

/-- The durable object store: a journal of puts, most recent first;
lookup by (bucket, key) sees the latest write. -/
abbrev Store := List ((String × String) × Bytes)

/-- Embedding of S3 put_object overwrite semantics: the new version
shadows older writes at the same (bucket, key). -/
def storePut (s : Store) (b k : String) (v : Bytes) : Store :=
  ((b, k), v) :: s

/-- The bytes currently stored at (bucket, key), if any. -/
def storeGet (s : Store) (b k : String) : Option Bytes :=
  s.lookup (b, k)

/-- Whether an object is currently stored at (bucket, key). -/
def storeHas (s : Store) (b k : String) : Bool :=
  (storeGet s b k).isSome

/-- The external collaborators of the module, fixed for a process
lifetime: the DESTINATION_BUCKET environment variable read at import,
the S3 reads (get_object plus body read), the PIL decode
(Image.open + convert RGB), the PIL JPEG encode (image.save), and the
outcome of S3 put_object per destination (bucket, key) (none = success). -/
structure Env where
  destBucket : String
  fetch : String → String → Except PyErr Bytes
  decode : Bytes → Except PyErr Raster
  encode : Raster → Except PyErr Bytes
  putErr : String → String → Option PyErr

/-- The module-level mutable state together with the durable store it
drives: object_keys is the module-level list defined at line 14 of the
source and never reset; store is the destination bucket contents. -/
structure PState where
  object_keys : List String
  store : Store
  deriving DecidableEq

/-- Embedding of upload_processed_image (lines 76-99): encode the image as
JPEG and put it at destination_key in DESTINATION_BUCKET; any exception is
logged and re-raised unchanged (bare raise). -/
def upload_processed_image (env : Env) (image : Raster) (destination_key : String)
    (st : PState) : Except PyErr Unit × PState :=
  match env.encode image with
  | .error e => (.error e, st)
  | .ok buf =>
    match env.putErr env.destBucket destination_key with
    | some e => (.error e, st)
    | none =>
      (.ok (), { st with store := storePut st.store env.destBucket destination_key buf })

/-- Embedding of the try block of process_record (lines 109-124): fetch the
source object, decode it, split the channels, and upload each channel image
at color/object_key; the except clause logs and performs a bare raise, so
every exception propagates unchanged. -/
def tryBlock (env : Env) (bucketName : JVal) (object_key : String)
    (st : PState) : Except PyErr (Option (List String)) × PState :=
  match bucketName with
  | .str source_bucket =>
    (match env.fetch source_bucket object_key with
     | .error e => (.error e, st)
     | .ok body =>
       match env.decode body with
       | .error e => (.error e, st)
       | .ok original_image =>
         match upload_processed_image env (create_channel_images original_image).1
             ("red/" ++ object_key) st with
         | (.error e, st1) => (.error e, st1)
         | (.ok _, st1) =>
           match upload_processed_image env (create_channel_images original_image).2.1
               ("green/" ++ object_key) st1 with
           | (.error e, st2) => (.error e, st2)
           | (.ok _, st2) =>
             match upload_processed_image env (create_channel_images original_image).2.2
                 ("blue/" ++ object_key) st2 with
             | (.error e, st3) => (.error e, st3)
             | (.ok _, st3) => (.ok none, st3))
  | _ => (.error (.typeError "invalid bucket name type"), st)

/-- Embedding of process_record (lines 102-124).  Field access on the
record and the key decoding happen before the try block; the object key is
appended to the module-level object_keys list before any fetch; the
function body ends without a return statement, so the Python value None
(here: Option.none) is returned on success. -/
def process_record (env : Env) (record : JVal) (st : PState) :
    Except PyErr (Option (List String)) × PState :=
  match record.subscript "s3" with
  | .error e => (.error e, st)
  | .ok s3_object =>
    match s3_object.subscript "bucket" with
    | .error e => (.error e, st)
    | .ok bucketObj =>
      match bucketObj.subscript "name" with
      | .error e => (.error e, st)
      | .ok bucketName =>
        match s3_object.subscript "object" with
        | .error e => (.error e, st)
        | .ok objectObj =>
          match objectObj.subscript "key" with
          | .error e => (.error e, st)
          | .ok keyVal =>
            match keyVal with
            | .str rawKey =>
              let object_key := unquote_plus rawKey
              tryBlock env bucketName object_key
                { st with object_keys := st.object_keys ++ [object_key] }
            | _ => (.error (.typeError "unquote_plus expected a string"), st)

/-- The record loop of lambda_handler (lines 131-132): records are
processed strictly in order; the first exception aborts the loop. -/
def runRecords (env : Env) (records : List JVal) (st : PState) :
    Except PyErr Unit × PState :=
  match records with
  | [] => (.ok (), st)
  | r :: rest =>
    match process_record env r st with
    | (.error e, st1) => (.error e, st1)
    | (.ok _, st1) => runRecords env rest st1

/-- The invocation response dictionary. -/
structure Response where
  statusCode : Nat
  body : String
  deriving DecidableEq

/-- Embedding of lambda_handler (lines 127-146): iterate the records of
the event; on success return 200 with a summary of the module-level
object_keys list, on any exception return 500 with the error message. -/
def lambda_handler (env : Env) (event : JVal) (st : PState) :
    Response × PState :=
  match event.subscript "Records" with
  | .error e =>
    ({ statusCode := 500, body := "Error in lambda_handler: " ++ strOfErr e }, st)
  | .ok recordsVal =>
    match pyIter recordsVal with
    | .error e =>
      ({ statusCode := 500, body := "Error in lambda_handler: " ++ strOfErr e }, st)
    | .ok records =>
      match runRecords env records st with
      | (.error e, st1) =>
        ({ statusCode := 500, body := "Error in lambda_handler: " ++ strOfErr e }, st1)
      | (.ok _, st1) =>
        ({ statusCode := 200,
           body := "Processed the following s3Objects: " ++
             String.intercalate ", " st1.object_keys }, st1)

/-- A well-formed S3 notification record with the given bucket and raw
(still percent-encoded) object key. -/
def mkRecord (bucket rawKey : String) : JVal :=
  .obj [("s3", .obj [("bucket", .obj [("name", .str bucket)]),
                     ("object", .obj [("key", .str rawKey)])])]

/-- A well-formed event wrapping a list of records. -/
def mkEvent (records : List JVal) : JVal :=
  .obj [("Records", .arr records)]

/-- A concrete environment: the destination bucket is dest, the source
bucket src holds only the object b.jpg (bytes1, decoding to img1), JPEG
encoding yields jbytes, and every put succeeds. -/
def bytes1 : Bytes := [1, 2, 3]

def jbytes : Bytes := [9]

def envAB : Env where
  destBucket := "dest"
  fetch := fun b k =>
    if b = "src" ∧ k = "b.jpg" then .ok bytes1 else .error (.clientError "NoSuchKey")
  decode := fun bs => if bs = bytes1 then .ok img1 else .error (.decodeError "cannot identify image file")
  encode := fun _ => .ok jbytes
  putErr := fun _ _ => none

/-- The empty module state at process start. -/
def st0 : PState := { object_keys := [], store := [] }

/-- Module state after successfully processing b.jpg from st0. -/
def stB : PState :=
  { object_keys := ["b.jpg"],
    store := [(("dest", "blue/b.jpg"), jbytes),
              (("dest", "green/b.jpg"), jbytes),
              (("dest", "red/b.jpg"), jbytes)] }

/-- The store contents after a fully successful record: the three channel
uploads, most recent first. -/
def storeAfter (st : PState) (env : Env) (k : String) (br bg bb : Bytes) : Store :=
  storePut (storePut (storePut st.store env.destBucket ("red/" ++ k) br)
    env.destBucket ("green/" ++ k) bg) env.destBucket ("blue/" ++ k) bb

/-- A module state left behind by earlier activity of the same process. -/
def stPre : PState := { object_keys := ["old.jpg"], store := [] }

lemma getElem?_set_list {α : Type _} (l : List α) (i j : Nat) (v : α) :
    (l.set i v)[j]? = if i = j then (l[j]?).map (fun _ => v) else l[j]? := by
  induction l generalizing i j with
  | nil => simp
  | cons a l ih =>
    cases i with
    | zero => cases j <;> simp
    | succ i =>
      cases j with
      | zero => simp
      | succ j => simpa using ih i j

lemma shape_zeroChannel (c : Nat) (a : Raster) :
    shape (zeroChannel c a) = shape a := by
  simp [shape, zeroChannel, List.map_map, Function.comp_def]

lemma sample_zeroChannel (c : Nat) (a : Raster) (i j k : Nat) :
    sample (zeroChannel c a) i j k =
      if k = c then (sample a i j k).map (fun _ => 0) else sample a i j k := by
  unfold sample zeroChannel
  rw [List.getElem?_map]
  cases hrow : a[i]? with
  | none => simp
  | some row =>
    simp only [Option.map_some', Option.bind_some, Option.some_bind]
    rw [List.getElem?_map]
    cases hpx : row[j]? with
    | none => simp
    | some px =>
      simp only [Option.map_some', Option.some_bind]
      rw [getElem?_set_list]
      by_cases h : c = k
      · subst h; simp
      · rw [if_neg h, if_neg (fun hk => h hk.symm)]

lemma sample_eq_some (a : Raster) (W : Nat)
    (hW : ∀ row ∈ a, row.length = W)
    (h3 : ∀ row ∈ a, ∀ px ∈ row, px.length = 3)
    (i j c : Nat) (hi : i < a.length) (hj : j < W) (hc : c < 3) :
    ∃ v, sample a i j c = some v := by
  have hrow : a[i]? = some a[i] := List.getElem?_eq_getElem hi
  have hmem : a[i] ∈ a := List.getElem_mem hi
  have hj2 : j < a[i].length := by rw [hW _ hmem]; exact hj
  have hpx : a[i][j]? = some a[i][j] := List.getElem?_eq_getElem hj2
  have hpxmem : a[i][j] ∈ a[i] := List.getElem_mem hj2
  have hc2 : c < a[i][j].length := by rw [h3 _ hmem _ hpxmem]; exact hc
  exact ⟨a[i][j][c], by simp [sample, hrow, hpx, List.getElem?_eq_getElem hc2]⟩

lemma create_channel_images_heap_eval (h : Heap) (inp : Nat)
    (hin : inp < h.size) :
    create_channel_images_heap h inp =
      (⟨h.size + 3, fun j =>
          if j = h.size + 2 then zeroChannel 1 (zeroChannel 0 (h.val inp))
          else if j = h.size + 1 then zeroChannel 2 (zeroChannel 0 (h.val inp))
          else if j = h.size then zeroChannel 2 (zeroChannel 1 (h.val inp))
          else h.val j⟩,
       h.size, h.size + 1, h.size + 2) := by
  have hne : inp ≠ h.size := by omega
  have hne1 : inp ≠ h.size + 1 := by omega
  have hne2 : inp ≠ h.size + 2 := by omega
  have ha : h.size + 1 ≠ h.size := by omega
  have hb : h.size + 2 ≠ h.size := by omega
  have hc : h.size + 2 ≠ h.size + 1 := by omega
  have ha' : h.size ≠ h.size + 1 := by omega
  have hb' : h.size ≠ h.size + 2 := by omega
  have hc' : h.size + 1 ≠ h.size + 2 := by omega
  simp only [create_channel_images_heap, Heap.alloc, Heap.read, Heap.write]
  refine Prod.ext ?_ rfl
  show Heap.mk _ _ = Heap.mk _ _
  simp only [Heap.mk.injEq]
  refine ⟨trivial, ?_⟩
  funext j
  by_cases j2 : j = h.size + 2
  · subst j2; simp [hne, hne1, hne2, ha, hb, hc, ha', hb', hc']
  · by_cases j1 : j = h.size + 1
    · subst j1; simp [hne, hne1, hne2, ha, hb, hc, ha', hb', hc']
    · by_cases j0 : j = h.size
      · subst j0; simp [hne, hne1, hne2, ha, hb, hc, ha', hb', hc']
      · simp [j0, j1, j2]

lemma process_record_mkRecord (env : Env) (sb rk : String) (st : PState) :
    process_record env (mkRecord sb rk) st =
      tryBlock env (.str sb) (unquote_plus rk)
        { st with object_keys := st.object_keys ++ [unquote_plus rk] } := rfl

example : process_record envAB (mkRecord "src" "b.jpg") st0 = (.ok none, stB) := rfl

example : process_record envAB (mkRecord "src" "a.jpg") st0 =
    (.error (.clientError "NoSuchKey"), { object_keys := ["a.jpg"], store := [] }) := rfl

example : lambda_handler envAB (mkEvent [mkRecord "src" "b.jpg"]) st0 =
    ({ statusCode := 200, body := "Processed the following s3Objects: b.jpg" }, stB) := rfl

lemma tryBlock_run (env : Env) (sb k : String) (st : PState)
    (body : Bytes) (img : Raster) (br bg bb : Bytes)
    (hf : env.fetch sb k = .ok body)
    (hd : env.decode body = .ok img)
    (he1 : env.encode (create_channel_images img).1 = .ok br)
    (he2 : env.encode (create_channel_images img).2.1 = .ok bg)
    (he3 : env.encode (create_channel_images img).2.2 = .ok bb)
    (hp1 : env.putErr env.destBucket ("red/" ++ k) = none)
    (hp2 : env.putErr env.destBucket ("green/" ++ k) = none)
    (hp3 : env.putErr env.destBucket ("blue/" ++ k) = none) :
    tryBlock env (.str sb) k st =
      (.ok none, { st with store := storeAfter st env k br bg bb }) := by
  simp [tryBlock, upload_processed_image, storeAfter, hf, hd, he1, he2, he3,
    hp1, hp2, hp3]

lemma tryBlock_ok_inv (env : Env) (bn : JVal) (k : String) (st : PState)
    (v : Option (List String)) (st' : PState)
    (h : tryBlock env bn k st = (.ok v, st')) :
    v = none ∧ ∃ sb body img br bg bb,
      bn = .str sb ∧
      env.fetch sb k = .ok body ∧
      env.decode body = .ok img ∧
      env.encode (create_channel_images img).1 = .ok br ∧
      env.encode (create_channel_images img).2.1 = .ok bg ∧
      env.encode (create_channel_images img).2.2 = .ok bb ∧
      env.putErr env.destBucket ("red/" ++ k) = none ∧
      env.putErr env.destBucket ("green/" ++ k) = none ∧
      env.putErr env.destBucket ("blue/" ++ k) = none ∧
      st' = { st with store := storeAfter st env k br bg bb } := by
  cases bn with
  | str sb =>
    simp only [tryBlock] at h
    cases hf : env.fetch sb k with
    | error e => rw [hf] at h; simp at h
    | ok body =>
      rw [hf] at h; dsimp only at h
      cases hd : env.decode body with
      | error e => rw [hd] at h; simp at h
      | ok img =>
        rw [hd] at h; dsimp only at h
        simp only [upload_processed_image] at h
        cases he1 : env.encode (create_channel_images img).1 with
        | error e => rw [he1] at h; simp at h
        | ok br =>
          rw [he1] at h; dsimp only at h
          cases hp1 : env.putErr env.destBucket ("red/" ++ k) with
          | some e => rw [hp1] at h; simp at h
          | none =>
            rw [hp1] at h; dsimp only at h
            cases he2 : env.encode (create_channel_images img).2.1 with
            | error e => rw [he2] at h; simp at h
            | ok bg =>
              rw [he2] at h; dsimp only at h
              cases hp2 : env.putErr env.destBucket ("green/" ++ k) with
              | some e => rw [hp2] at h; simp at h
              | none =>
                rw [hp2] at h; dsimp only at h
                cases he3 : env.encode (create_channel_images img).2.2 with
                | error e => rw [he3] at h; simp at h
                | ok bb =>
                  rw [he3] at h; dsimp only at h
                  cases hp3 : env.putErr env.destBucket ("blue/" ++ k) with
                  | some e => rw [hp3] at h; simp at h
                  | none =>
                    rw [hp3] at h; dsimp only at h
                    simp only [Prod.mk.injEq, Except.ok.injEq] at h
                    exact ⟨h.1.symm, sb, body, img, br, bg, bb, rfl, hf, hd,
                      he1, he2, he3, rfl, rfl, rfl, by rw [← h.2]; rfl⟩
  | null => simp [tryBlock] at h
  | bool b => simp [tryBlock] at h
  | num n => simp [tryBlock] at h
  | arr xs => simp [tryBlock] at h
  | obj fields => simp [tryBlock] at h

lemma tryBlock_fetch_err (env : Env) (sb k : String) (st : PState) (e : PyErr)
    (hf : env.fetch sb k = .error e) :
    tryBlock env (.str sb) k st = (.error e, st) := by
  simp [tryBlock, hf]

lemma tryBlock_decode_err (env : Env) (sb k : String) (st : PState)
    (body : Bytes) (e : PyErr)
    (hf : env.fetch sb k = .ok body) (hd : env.decode body = .error e) :
    tryBlock env (.str sb) k st = (.error e, st) := by
  simp [tryBlock, hf, hd]

lemma tryBlock_encode_red_err (env : Env) (sb k : String) (st : PState)
    (body : Bytes) (img : Raster) (e : PyErr)
    (hf : env.fetch sb k = .ok body) (hd : env.decode body = .ok img)
    (he1 : env.encode (create_channel_images img).1 = .error e) :
    tryBlock env (.str sb) k st = (.error e, st) := by
  simp [tryBlock, upload_processed_image, hf, hd, he1]

lemma tryBlock_put_blue_err (env : Env) (sb k : String) (st : PState)
    (body : Bytes) (img : Raster) (br bg bb : Bytes) (e : PyErr)
    (hf : env.fetch sb k = .ok body) (hd : env.decode body = .ok img)
    (he1 : env.encode (create_channel_images img).1 = .ok br)
    (hp1 : env.putErr env.destBucket ("red/" ++ k) = none)
    (he2 : env.encode (create_channel_images img).2.1 = .ok bg)
    (hp2 : env.putErr env.destBucket ("green/" ++ k) = none)
    (he3 : env.encode (create_channel_images img).2.2 = .ok bb)
    (hp3 : env.putErr env.destBucket ("blue/" ++ k) = some e) :
    tryBlock env (.str sb) k st =
      (.error e,
       { st with store := (storePut (storePut st.store env.destBucket ("red/" ++ k) br)
           env.destBucket ("green/" ++ k) bg) }) := by
  simp [tryBlock, upload_processed_image, hf, hd, he1, he2, he3, hp1, hp2, hp3]

lemma runRecords_append (env : Env) (xs ys : List JVal) (st : PState) :
    runRecords env (xs ++ ys) st =
      match runRecords env xs st with
      | (.error e, st1) => (.error e, st1)
      | (.ok _, st1) => runRecords env ys st1 := by
  induction xs generalizing st with
  | nil => simp [runRecords]
  | cons x xs ih =>
    simp only [List.cons_append, runRecords]
    cases hpr : process_record env x st with
    | mk res st1 =>
      cases res with
      | error e => rfl
      | ok u => exact ih st1

lemma lambda_handler_mkEvent (env : Env) (rs : List JVal) (st : PState) :
    lambda_handler env (mkEvent rs) st =
      match runRecords env rs st with
      | (.error e, st1) =>
        ({ statusCode := 500, body := "Error in lambda_handler: " ++ strOfErr e }, st1)
      | (.ok _, st1) =>
        ({ statusCode := 200,
           body := "Processed the following s3Objects: " ++
             String.intercalate ", " st1.object_keys }, st1) := rfl

lemma storeHas_storePut_self (s : Store) (b k : String) (v : Bytes) :
    storeHas (storePut s b k v) b k = true := by
  simp [storeHas, storeGet, storePut, List.lookup]

lemma storeHas_storePut (s : Store) (b k : String) (v : Bytes) (b2 k2 : String)
    (h : storeHas s b2 k2 = true) :
    storeHas (storePut s b k v) b2 k2 = true := by
  simp only [storeHas, storeGet, storePut, List.lookup]
  cases hbe : ((b2, k2) == (b, k)) with
  | true => simp
  | false => simpa [storeHas, storeGet] using h

lemma upload_state_shape (env : Env) (img : Raster) (dk : String) (st : PState) :
    ((upload_processed_image env img dk st).2).object_keys = st.object_keys ∧
    (∀ b k, storeHas st.store b k = true →
      storeHas ((upload_processed_image env img dk st).2).store b k = true) := by
  unfold upload_processed_image
  split
  · exact ⟨rfl, fun b k h => h⟩
  · split
    · exact ⟨rfl, fun b k h => h⟩
    · exact ⟨rfl, fun b k h => storeHas_storePut _ _ _ _ _ _ h⟩

lemma tryBlock_state_shape (env : Env) (bn : JVal) (k2 : String) (st : PState) :
    ((tryBlock env bn k2 st).2).object_keys = st.object_keys ∧
    (∀ b k, storeHas st.store b k = true →
      storeHas ((tryBlock env bn k2 st).2).store b k = true) := by
  unfold tryBlock
  split
  · split
    · exact ⟨rfl, fun b k h => h⟩
    · rename_i body hf
      split
      · exact ⟨rfl, fun b k h => h⟩
      · rename_i img hd
        split
        · rename_i e1 st1 h1
          have u1 := upload_state_shape env (create_channel_images img).1
            ("red/" ++ k2) st
          rw [h1] at u1
          exact u1
        · rename_i u1v st1 h1
          have u1 := upload_state_shape env (create_channel_images img).1
            ("red/" ++ k2) st
          rw [h1] at u1
          split
          · rename_i e2 st2 h2
            have u2 := upload_state_shape env (create_channel_images img).2.1
              ("green/" ++ k2) st1
            rw [h2] at u2
            exact ⟨u2.1.trans u1.1, fun b k h => u2.2 b k (u1.2 b k h)⟩
          · rename_i u2v st2 h2
            have u2 := upload_state_shape env (create_channel_images img).2.1
              ("green/" ++ k2) st1
            rw [h2] at u2
            split
            · rename_i e3 st3 h3
              have u3 := upload_state_shape env (create_channel_images img).2.2
                ("blue/" ++ k2) st2
              rw [h3] at u3
              exact ⟨u3.1.trans (u2.1.trans u1.1),
                fun b k h => u3.2 b k (u2.2 b k (u1.2 b k h))⟩
            · rename_i u3v st3 h3
              have u3 := upload_state_shape env (create_channel_images img).2.2
                ("blue/" ++ k2) st2
              rw [h3] at u3
              exact ⟨u3.1.trans (u2.1.trans u1.1),
                fun b k h => u3.2 b k (u2.2 b k (u1.2 b k h))⟩
  · exact ⟨rfl, fun b k h => h⟩

lemma process_record_store_mono (env : Env) (record : JVal) (st : PState)
    (b k : String) (h : storeHas st.store b k = true) :
    storeHas ((process_record env record st).2).store b k = true := by
  unfold process_record
  split
  · exact h
  · split
    · exact h
    · split
      · exact h
      · split
        · exact h
        · split
          · exact h
          · split
            · exact (tryBlock_state_shape env _ _ _).2 b k h
            · exact h

/-- C1: for every well-formed H x W x 3 raster of unsigned 8-bit samples,
create_channel_images returns three rasters of the same shape as the input;
the red output keeps channel 0 and has channels 1 and 2 zero at every
pixel, the green output keeps channel 1 and zeroes channels 0 and 2, and
the blue output keeps channel 2 and zeroes channels 0 and 1. -/
theorem C1_create_channel_images_correct (a : Raster) (W : Nat)
    (hW : ∀ row ∈ a, row.length = W)
    (h3 : ∀ row ∈ a, ∀ px ∈ row, px.length = 3)
    (h8 : ∀ row ∈ a, ∀ px ∈ row, ∀ s ∈ px, s < 256) :
    (shape (create_channel_images a).1 = shape a ∧
     shape (create_channel_images a).2.1 = shape a ∧
     shape (create_channel_images a).2.2 = shape a) ∧
    (∀ i j, i < a.length → j < W →
      (sample (create_channel_images a).1 i j 0 = sample a i j 0 ∧
       sample (create_channel_images a).1 i j 1 = some 0 ∧
       sample (create_channel_images a).1 i j 2 = some 0) ∧
      (sample (create_channel_images a).2.1 i j 0 = some 0 ∧
       sample (create_channel_images a).2.1 i j 1 = sample a i j 1 ∧
       sample (create_channel_images a).2.1 i j 2 = some 0) ∧
      (sample (create_channel_images a).2.2 i j 0 = some 0 ∧
       sample (create_channel_images a).2.2 i j 1 = some 0 ∧
       sample (create_channel_images a).2.2 i j 2 = sample a i j 2)) := by
  refine ⟨⟨?_, ?_, ?_⟩, ?_⟩
  · show shape (zeroChannel 2 (zeroChannel 1 a)) = shape a
    rw [shape_zeroChannel, shape_zeroChannel]
  · show shape (zeroChannel 2 (zeroChannel 0 a)) = shape a
    rw [shape_zeroChannel, shape_zeroChannel]
  · show shape (zeroChannel 1 (zeroChannel 0 a)) = shape a
    rw [shape_zeroChannel, shape_zeroChannel]
  · intro i j hi hj
    obtain ⟨v0, hv0⟩ := sample_eq_some a W hW h3 i j 0 hi hj (by omega)
    obtain ⟨v1, hv1⟩ := sample_eq_some a W hW h3 i j 1 hi hj (by omega)
    obtain ⟨v2, hv2⟩ := sample_eq_some a W hW h3 i j 2 hi hj (by omega)
    refine ⟨⟨?_, ?_, ?_⟩, ⟨?_, ?_, ?_⟩, ⟨?_, ?_, ?_⟩⟩ <;>
      simp [show (create_channel_images a).1 = zeroChannel 2 (zeroChannel 1 a) from rfl,
            show (create_channel_images a).2.1 = zeroChannel 2 (zeroChannel 0 a) from rfl,
            show (create_channel_images a).2.2 = zeroChannel 1 (zeroChannel 0 a) from rfl,
            sample_zeroChannel, hv0, hv1, hv2]

/-- C1 witness: the theorem applied to the concrete raster img1 with its
hypotheses discharged by evaluation. -/
theorem C1_witness :
    ((∀ row ∈ img1, row.length = 2) ∧
     (∀ row ∈ img1, ∀ px ∈ row, px.length = 3) ∧
     (∀ row ∈ img1, ∀ px ∈ row, ∀ s ∈ px, s < 256)) ∧
    (sample (create_channel_images img1).1 0 1 0 = sample img1 0 1 0 ∧
     sample (create_channel_images img1).1 0 1 1 = some 0 ∧
     sample (create_channel_images img1).1 0 1 2 = some 0) :=
  ⟨⟨by decide, by decide, by decide⟩,
   ((C1_create_channel_images_correct img1 2 (by decide) (by decide)
      (by decide)).2 0 1 (by decide) (by decide)).1⟩

/-- C8: the channel splitter never mutates its input buffer, the three
output buffers are fresh, pairwise distinct buffers different from the
input, each holding the expected single-channel contents, and writing to
any one output buffer changes neither the input buffer nor the other two
output buffers. -/
theorem C8_independent_buffers (h : Heap) (inp : Nat) (hin : inp < h.size)
    (H : Heap) (r g b : Nat)
    (hrun : create_channel_images_heap h inp = (H, r, g, b)) :
    H.read inp = h.read inp ∧
    (r ≠ inp ∧ g ≠ inp ∧ b ≠ inp ∧ r ≠ g ∧ r ≠ b ∧ g ≠ b) ∧
    (H.read r = zeroChannel 2 (zeroChannel 1 (h.read inp)) ∧
     H.read g = zeroChannel 2 (zeroChannel 0 (h.read inp)) ∧
     H.read b = zeroChannel 1 (zeroChannel 0 (h.read inp))) ∧
    (∀ x, (H.write r x).read inp = H.read inp ∧
          (H.write r x).read g = H.read g ∧
          (H.write r x).read b = H.read b) ∧
    (∀ x, (H.write g x).read inp = H.read inp ∧
          (H.write g x).read r = H.read r ∧
          (H.write g x).read b = H.read b) ∧
    (∀ x, (H.write b x).read inp = H.read inp ∧
          (H.write b x).read r = H.read r ∧
          (H.write b x).read g = H.read g) := by
  rw [create_channel_images_heap_eval h inp hin] at hrun
  injection hrun with hH hrest
  injection hrest with hr hrest
  injection hrest with hg hb
  subst hH; subst hr; subst hg; subst hb
  have e0 : inp ≠ h.size := by omega
  have e1 : inp ≠ h.size + 1 := by omega
  have e2 : inp ≠ h.size + 2 := by omega
  have f1 : h.size ≠ h.size + 1 := by omega
  have f2 : h.size ≠ h.size + 2 := by omega
  have f3 : h.size + 1 ≠ h.size := by omega
  have f4 : h.size + 1 ≠ h.size + 2 := by omega
  have f5 : h.size + 2 ≠ h.size := by omega
  have f6 : h.size + 2 ≠ h.size + 1 := by omega
  refine ⟨?_, ⟨by omega, by omega, by omega, by omega, by omega, by omega⟩,
    ⟨?_, ?_, ?_⟩, ?_, ?_, ?_⟩
  · simp [Heap.read, e0, e1, e2]
  · simp [Heap.read, f1, f2]
  · simp [Heap.read, f4]
  · simp [Heap.read]
  · intro x
    refine ⟨?_, ?_, ?_⟩ <;>
      simp [Heap.read, Heap.write, e0, e1, e2, f1, f2, f3, f4, f5, f6]
  · intro x
    refine ⟨?_, ?_, ?_⟩ <;>
      simp [Heap.read, Heap.write, e0, e1, e2, f1, f2, f3, f4, f5, f6]
  · intro x
    refine ⟨?_, ?_, ?_⟩ <;>
      simp [Heap.read, Heap.write, e0, e1, e2, f1, f2, f3, f4, f5, f6]

/-- C8 witness: the theorem applied to the one-buffer heap heap1 and its
input buffer 0, with hypotheses discharged by evaluation. -/
theorem C8_witness :
    (0 < heap1.size ∧
     create_channel_images_heap heap1 0 =
       ((create_channel_images_heap heap1 0).1, 1, 2, 3)) ∧
    ((create_channel_images_heap heap1 0).1.read 0 = heap1.read 0 ∧
     (1 ≠ 0 ∧ 2 ≠ 0 ∧ 3 ≠ 0 ∧ 1 ≠ 2 ∧ 1 ≠ 3 ∧ 2 ≠ 3)) :=
  ⟨⟨by decide, rfl⟩,
   (fun conc => ⟨conc.1, conc.2.1⟩)
     (C8_independent_buffers heap1 0 (by decide)
       (create_channel_images_heap heap1 0).1 1 2 3 rfl)⟩

/-- C2 counterexample: on a record whose fetch, decode, split, encode and
store steps all succeed, process_record does not return the list of the
three stored destination keys; it returns the Python value None (the
function body has no return statement). -/
theorem C2_counterexample :
    (process_record envAB (mkRecord "src" "b.jpg") st0).1 = Except.ok none ∧
    (process_record envAB (mkRecord "src" "b.jpg") st0).1 ≠
      Except.ok (some ["red/b.jpg", "green/b.jpg", "blue/b.jpg"]) := by
  refine ⟨rfl, fun h => ?_⟩
  rw [show (process_record envAB (mkRecord "src" "b.jpg") st0).1 =
        Except.ok none from rfl] at h
  exact Option.noConfusion (Except.ok.inj h)

/-- C2 amended: for every record whose fetch, decode, split, encode and
store steps all succeed, process_record stores the three channel images at
the destination keys red/key, green/key and blue/key but returns no value
(None); the destination keys are not returned to the caller. -/
theorem C2_process_record_returns_none (env : Env) (st : PState) (sb rk : String)
    (body : Bytes) (img : Raster) (br bg bb : Bytes)
    (hf : env.fetch sb (unquote_plus rk) = .ok body)
    (hd : env.decode body = .ok img)
    (he1 : env.encode (create_channel_images img).1 = .ok br)
    (he2 : env.encode (create_channel_images img).2.1 = .ok bg)
    (he3 : env.encode (create_channel_images img).2.2 = .ok bb)
    (hp1 : env.putErr env.destBucket ("red/" ++ unquote_plus rk) = none)
    (hp2 : env.putErr env.destBucket ("green/" ++ unquote_plus rk) = none)
    (hp3 : env.putErr env.destBucket ("blue/" ++ unquote_plus rk) = none) :
    process_record env (mkRecord sb rk) st =
      (Except.ok none,
       { object_keys := st.object_keys ++ [unquote_plus rk],
         store := storeAfter
           { st with object_keys := st.object_keys ++ [unquote_plus rk] }
           env (unquote_plus rk) br bg bb }) := by
  rw [process_record_mkRecord,
    tryBlock_run env sb (unquote_plus rk) _ body img br bg bb hf hd he1 he2 he3
      hp1 hp2 hp3]

/-- C2 witness: the amended theorem applied to the concrete environment
envAB and the record for b.jpg, all hypotheses discharged by evaluation. -/
theorem C2_witness :
    (envAB.fetch "src" (unquote_plus "b.jpg") = Except.ok bytes1 ∧
     envAB.decode bytes1 = Except.ok img1) ∧
    process_record envAB (mkRecord "src" "b.jpg") st0 = (Except.ok none, stB) :=
  ⟨⟨rfl, rfl⟩,
   (C2_process_record_returns_none envAB st0 "src" "b.jpg" bytes1 img1
      jbytes jbytes jbytes rfl rfl rfl rfl rfl rfl rfl rfl).trans (by rfl)⟩

/-- C3 counterexample: when the fetch step raises (missing a.jpg), the
exception leaving process_record is the original client error itself, not
a ProcessingError carrying the object key and the cause. -/
theorem C3_counterexample :
    (process_record envAB (mkRecord "src" "a.jpg") st0).1 =
      Except.error (PyErr.clientError "NoSuchKey") ∧
    (process_record envAB (mkRecord "src" "a.jpg") st0).1 ≠
      Except.error (PyErr.processingError "a.jpg" (PyErr.clientError "NoSuchKey")) := by
  refine ⟨rfl, fun h => ?_⟩
  rw [show (process_record envAB (mkRecord "src" "a.jpg") st0).1 =
        Except.error (PyErr.clientError "NoSuchKey") from rfl] at h
  exact PyErr.noConfusion (Except.error.inj h)

/-- C3 amended: process_record catches any exception from the fetch,
decode, encode and store steps, logs it with the object key, and re-raises
the original exception unchanged (the except clause is a bare raise);
no ProcessingError wrapping occurs.  Stated per failing step: the error
leaving process_record is exactly the error that step produced. -/
theorem C3_reraises_original_exception (env : Env) (st : PState)
    (sb rk : String) (e : PyErr) :
    (env.fetch sb (unquote_plus rk) = .error e →
       process_record env (mkRecord sb rk) st =
         (.error e, { st with object_keys := st.object_keys ++ [unquote_plus rk] })) ∧
    (∀ body, env.fetch sb (unquote_plus rk) = .ok body →
       env.decode body = .error e →
       process_record env (mkRecord sb rk) st =
         (.error e, { st with object_keys := st.object_keys ++ [unquote_plus rk] })) ∧
    (∀ body img, env.fetch sb (unquote_plus rk) = .ok body →
       env.decode body = .ok img →
       env.encode (create_channel_images img).1 = .error e →
       process_record env (mkRecord sb rk) st =
         (.error e, { st with object_keys := st.object_keys ++ [unquote_plus rk] })) ∧
    (∀ body img br bg bb, env.fetch sb (unquote_plus rk) = .ok body →
       env.decode body = .ok img →
       env.encode (create_channel_images img).1 = .ok br →
       env.putErr env.destBucket ("red/" ++ unquote_plus rk) = none →
       env.encode (create_channel_images img).2.1 = .ok bg →
       env.putErr env.destBucket ("green/" ++ unquote_plus rk) = none →
       env.encode (create_channel_images img).2.2 = .ok bb →
       env.putErr env.destBucket ("blue/" ++ unquote_plus rk) = some e →
       process_record env (mkRecord sb rk) st =
         (.error e,
          { object_keys := st.object_keys ++ [unquote_plus rk],
            store := storePut (storePut st.store env.destBucket
                ("red/" ++ unquote_plus rk) br)
              env.destBucket ("green/" ++ unquote_plus rk) bg })) := by
  refine ⟨fun hf => ?_, fun body hf hd => ?_, fun body img hf hd he1 => ?_,
    fun body img br bg bb hf hd he1 hp1 he2 hp2 he3 hp3 => ?_⟩
  · rw [process_record_mkRecord, tryBlock_fetch_err env sb _ _ e hf]
  · rw [process_record_mkRecord, tryBlock_decode_err env sb _ _ body e hf hd]
  · rw [process_record_mkRecord, tryBlock_encode_red_err env sb _ _ body img e hf hd he1]
  · rw [process_record_mkRecord,
      tryBlock_put_blue_err env sb _ _ body img br bg bb e hf hd he1 hp1 he2 hp2 he3 hp3]

/-- C3 witness: the amended theorem applied to the concrete environment
envAB and the missing object a.jpg, hypotheses discharged by evaluation. -/
theorem C3_witness :
    envAB.fetch "src" (unquote_plus "a.jpg") =
      Except.error (PyErr.clientError "NoSuchKey") ∧
    process_record envAB (mkRecord "src" "a.jpg") st0 =
      (Except.error (PyErr.clientError "NoSuchKey"),
       { object_keys := ["a.jpg"], store := [] }) :=
  ⟨rfl,
   ((C3_reraises_original_exception envAB st0 "src" "a.jpg"
      (PyErr.clientError "NoSuchKey")).1 rfl).trans (by rfl)⟩

/-- C4: the invocation handler processes the records of the event strictly
in the order supplied; if every record succeeds it returns statusCode 200,
and the first failing record aborts all remaining records and makes the
handler return statusCode 500 with that first error message in the body
(the response and final state do not depend on the records after the
failing one). -/
theorem C4_fail_fast (env : Env) (rs : List JVal) (st : PState) :
    (∀ st1, runRecords env rs st = (.ok (), st1) →
       (lambda_handler env (mkEvent rs) st).1.statusCode = 200) ∧
    (∀ pre r rest st1 e st2, rs = pre ++ r :: rest →
       runRecords env pre st = (.ok (), st1) →
       process_record env r st1 = (.error e, st2) →
       lambda_handler env (mkEvent rs) st =
         ({ statusCode := 500,
            body := "Error in lambda_handler: " ++ strOfErr e }, st2)) := by
  constructor
  · intro st1 h
    rw [lambda_handler_mkEvent, h]
  · intro pre r rest st1 e st2 hsplit hpre hfail
    subst hsplit
    have hrun : runRecords env (pre ++ r :: rest) st = (.error e, st2) := by
      rw [runRecords_append, hpre]
      show runRecords env (r :: rest) st1 = _
      simp only [runRecords]
      rw [hfail]
    rw [lambda_handler_mkEvent, hrun]

/-- C4 witness: a two-record event whose first record references the
missing object a.jpg; the theorem applied with the failure at index 0. -/
theorem C4_witness :
    runRecords envAB ([] : List JVal) st0 = (Except.ok (), st0) ∧
    process_record envAB (mkRecord "src" "a.jpg") st0 =
      (Except.error (PyErr.clientError "NoSuchKey"),
       { object_keys := ["a.jpg"], store := [] }) ∧
    lambda_handler envAB
        (mkEvent [mkRecord "src" "a.jpg", mkRecord "src" "b.jpg"]) st0 =
      ({ statusCode := 500, body := "Error in lambda_handler: NoSuchKey" },
       { object_keys := ["a.jpg"], store := [] }) :=
  ⟨rfl, rfl,
   (C4_fail_fast envAB [mkRecord "src" "a.jpg", mkRecord "src" "b.jpg"] st0).2
     [] (mkRecord "src" "a.jpg") [mkRecord "src" "b.jpg"] st0
     (PyErr.clientError "NoSuchKey") { object_keys := ["a.jpg"], store := [] }
     rfl rfl rfl⟩

/-- C10: for every event payload whatsoever, including malformed ones
missing the Records field or records missing the s3, bucket, name, object
or key fields, lambda_handler never propagates an exception: it returns a
response dictionary whose statusCode is 200 or 500 (the body is a string
by the type of Response). -/
theorem C10_handler_total (env : Env) (event : JVal) (st : PState) :
    (lambda_handler env event st).1.statusCode = 200 ∨
    (lambda_handler env event st).1.statusCode = 500 := by
  unfold lambda_handler
  cases hs : event.subscript "Records" with
  | error e => exact Or.inr rfl
  | ok recordsVal =>
    dsimp only
    cases hi : pyIter recordsVal with
    | error e => exact Or.inr rfl
    | ok records =>
      dsimp only
      cases hr : runRecords env records st with
      | mk res st1 =>
        cases res with
        | error e => exact Or.inr rfl
        | ok u => exact Or.inl rfl

/-- C9: record processing performs no cleanup on failure: when a record
fails after earlier records (and possibly some of its own channel uploads)
have stored objects, the invocation returns statusCode 500 with the state
reached at the failure, and every destination object stored before the
failure is still stored in the final state. -/
theorem C9_no_cleanup_on_failure (env : Env) (pre : List JVal) (r : JVal)
    (rest : List JVal) (st st1 st2 : PState) (e : PyErr)
    (hpre : runRecords env pre st = (.ok (), st1))
    (hfail : process_record env r st1 = (.error e, st2)) :
    (lambda_handler env (mkEvent (pre ++ r :: rest)) st).1.statusCode = 500 ∧
    (lambda_handler env (mkEvent (pre ++ r :: rest)) st).2 = st2 ∧
    (∀ b k, storeHas st1.store b k = true →
      storeHas ((lambda_handler env (mkEvent (pre ++ r :: rest)) st).2).store
        b k = true) := by
  have hrun : runRecords env (pre ++ r :: rest) st = (.error e, st2) := by
    rw [runRecords_append, hpre]
    show runRecords env (r :: rest) st1 = _
    simp only [runRecords]
    rw [hfail]
  refine ⟨?_, ?_, ?_⟩
  · rw [lambda_handler_mkEvent, hrun]
  · rw [lambda_handler_mkEvent, hrun]
  · intro b k hbk
    rw [lambda_handler_mkEvent, hrun]
    have hm := process_record_store_mono env r st1 b k hbk
    rw [hfail] at hm
    exact hm

/-- C9 witness: a two-record event where b.jpg succeeds and then a.jpg
fails; the three objects stored for b.jpg are still stored in the final
state of the 500 invocation. -/
theorem C9_witness :
    runRecords envAB [mkRecord "src" "b.jpg"] st0 = (Except.ok (), stB) ∧
    process_record envAB (mkRecord "src" "a.jpg") stB =
      (Except.error (PyErr.clientError "NoSuchKey"),
       { object_keys := ["b.jpg", "a.jpg"], store := stB.store }) ∧
    storeHas stB.store "dest" "red/b.jpg" = true ∧
    storeHas ((lambda_handler envAB
        (mkEvent [mkRecord "src" "b.jpg", mkRecord "src" "a.jpg"]) st0).2).store
      "dest" "red/b.jpg" = true :=
  ⟨rfl, rfl, rfl,
   (C9_no_cleanup_on_failure envAB [mkRecord "src" "b.jpg"]
      (mkRecord "src" "a.jpg") [] st0 stB
      { object_keys := ["b.jpg", "a.jpg"], store := stB.store }
      (PyErr.clientError "NoSuchKey") rfl rfl).2.2 "dest" "red/b.jpg" rfl⟩

/-- C5 fails on the code: object_keys is a module-level list that is
appended before a record is attempted and survives across invocations of
the same process, so a 200 body also summarizes keys of failed records and
keys from earlier invocations.  Evaluated: invocation 1 fails on a.jpg
(500); invocation 2 of the same process succeeds on b.jpg, yet its 200
body lists a.jpg as processed as well. -/
theorem C5_stale_keys_in_success_body :
    (lambda_handler envAB (mkEvent [mkRecord "src" "a.jpg"]) st0).1.statusCode = 500 ∧
    (lambda_handler envAB (mkEvent [mkRecord "src" "b.jpg"])
        (lambda_handler envAB (mkEvent [mkRecord "src" "a.jpg"]) st0).2).1 =
      { statusCode := 200,
        body := "Processed the following s3Objects: a.jpg, b.jpg" } :=
  ⟨rfl, rfl⟩

/-- C6 counterexample: there is module-level mutable state beyond the
destination container name: process_record writes the module-level
object_keys list (its state after a record differs from before), and
lambda_handler reads it (the same event from two module states differing
only in object_keys produces different 200 bodies). -/
theorem C6_counterexample :
    (process_record envAB (mkRecord "src" "b.jpg") st0).2.object_keys ≠
      st0.object_keys ∧
    (lambda_handler envAB (mkEvent [mkRecord "src" "b.jpg"]) st0).1.body ≠
      (lambda_handler envAB (mkEvent [mkRecord "src" "b.jpg"]) stPre).1.body :=
  ⟨by decide, by decide⟩

/-- C6 amended: besides the destination container name (fixed in Env for
the process lifetime), the module keeps one more piece of process-wide
mutable state: the module-level object_keys list.  process_record appends
the decoded key of every well-formed record to it, whatever the outcome of
the record, and lambda_handler reads the accumulated list to build its 200
body. -/
theorem C6_module_state (env : Env) (st : PState) (sb rk : String) :
    (process_record env (mkRecord sb rk) st).2.object_keys =
      st.object_keys ++ [unquote_plus rk] ∧
    (∀ rs st1, runRecords env rs st = (.ok (), st1) →
      (lambda_handler env (mkEvent rs) st).1.body =
        "Processed the following s3Objects: " ++
          String.intercalate ", " st1.object_keys) := by
  constructor
  · rw [process_record_mkRecord]
    exact (tryBlock_state_shape env (.str sb) (unquote_plus rk) _).1
  · intro rs st1 h
    rw [lambda_handler_mkEvent, h]

/-- C6 witness: the amended theorem applied to envAB and the b.jpg record
from the empty module state. -/
theorem C6_witness :
    (process_record envAB (mkRecord "src" "b.jpg") st0).2.object_keys =
      [] ++ [unquote_plus "b.jpg"] ∧
    runRecords envAB [mkRecord "src" "b.jpg"] st0 = (Except.ok (), stB) ∧
    (lambda_handler envAB (mkEvent [mkRecord "src" "b.jpg"]) st0).1.body =
      "Processed the following s3Objects: " ++
        String.intercalate ", " stB.object_keys :=
  ⟨(C6_module_state envAB st0 "src" "b.jpg").1, rfl,
   (C6_module_state envAB st0 "src" "b.jpg").2 [mkRecord "src" "b.jpg"] stB rfl⟩

/-- C7: the percent-encoded object key of the record is URL-decoded before
use; a successful record has fetched the source object at the decoded key
and stored exactly three outputs in the configured destination bucket, at
the keys red/, green/ and blue/ followed by the decoded key. -/
theorem C7_decoded_key_and_destinations (env : Env) (st : PState)
    (sb rk : String) (v : Option (List String)) (st2 : PState)
    (h : process_record env (mkRecord sb rk) st = (.ok v, st2)) :
    (∃ body, env.fetch sb (unquote_plus rk) = .ok body) ∧
    (∃ br bg bb,
      st2.store = storeAfter
        { st with object_keys := st.object_keys ++ [unquote_plus rk] }
        env (unquote_plus rk) br bg bb) ∧
    storeHas st2.store env.destBucket ("red/" ++ unquote_plus rk) = true ∧
    storeHas st2.store env.destBucket ("green/" ++ unquote_plus rk) = true ∧
    storeHas st2.store env.destBucket ("blue/" ++ unquote_plus rk) = true := by
  rw [process_record_mkRecord] at h
  obtain ⟨hv, sb2, body, img, br, bg, bb, hsb, hf, hd, he1, he2, he3,
    hp1, hp2, hp3, hst⟩ :=
    tryBlock_ok_inv env (.str sb) (unquote_plus rk) _ v st2 h
  injection hsb with hsb2
  subst hsb2
  refine ⟨⟨body, hf⟩, ⟨br, bg, bb, by rw [hst]⟩, ?_, ?_, ?_⟩
  · rw [hst]
    exact storeHas_storePut _ _ _ _ _ _
      (storeHas_storePut _ _ _ _ _ _ (storeHas_storePut_self _ _ _ _))
  · rw [hst]
    exact storeHas_storePut _ _ _ _ _ _ (storeHas_storePut_self _ _ _ _)
  · rw [hst]
    exact storeHas_storePut_self _ _ _ _

/-- C7 witness: the theorem applied to the concrete successful record for
b.jpg in envAB, hypotheses discharged by evaluation. -/
theorem C7_witness :
    process_record envAB (mkRecord "src" "b.jpg") st0 = (Except.ok none, stB) ∧
    (storeHas stB.store "dest" "red/b.jpg" = true ∧
     storeHas stB.store "dest" "green/b.jpg" = true ∧
     storeHas stB.store "dest" "blue/b.jpg" = true) :=
  ⟨rfl,
   (C7_decoded_key_and_destinations envAB st0 "src" "b.jpg" none stB rfl).2.2.1,
   (C7_decoded_key_and_destinations envAB st0 "src" "b.jpg" none stB rfl).2.2.2.1,
   (C7_decoded_key_and_destinations envAB st0 "src" "b.jpg" none stB rfl).2.2.2.2⟩

end RGBSplit
